import Mathlib

/-!
Verification of the flash-attention / KV-cache validation core of the
ollama-kv-cache-runner repository.  The repository carries two variants of
the validation logic: `src/unnamed/part_000` (struct-valued decision,
empty-string fallback) and `src/llm/validation.go` (single-boolean decision,
"f16" fallback).  Both are embedded below, in the namespaces `Unnamed` and
`Llm` respectively.
-/

namespace OllamaValidation

/-- A heterogeneous scalar value stored in the model-metadata mapping. -/
inductive KVValue where
  | num (n : Nat)
  | str (s : String)
deriving DecidableEq

/-- Modelled from the spec: the model-metadata mapping `KV` (its Go
definition lives outside `src/`): "a mapping from string keys to
heterogeneous scalar values", read-only to this core. -/
structure KV where
  entries : List (String × KVValue)
deriving DecidableEq

/-- First-match association lookup over the metadata entries. -/
def lookupEntries : List (String × KVValue) → String → Option KVValue
  | [], _ => none
  | (k2, v) :: rest, k => if k2 == k then some v else lookupEntries rest k

/-- Generic key lookup on the metadata mapping. -/
def KV.lookup (kv : KV) (k : String) : Option KVValue :=
  lookupEntries kv.entries k

/-- Modelled from the spec: the "boolean present signal for key lookup"
offered by the metadata source. -/
def KV.hasKey (kv : KV) (k : String) : Bool :=
  (kv.lookup k).isSome

/-- Modelled from the spec: `architecture()` of the metadata source — the
value of the `general.architecture` key. -/
def KV.Architecture (kv : KV) : String :=
  match kv.lookup "general.architecture" with
  | some (KVValue.str s) => s
  | _ => ""

/-- Modelled from the spec: numeric key lookup, which "must return
zero-valued defaults for absent numeric keys". -/
def KV.numValue (kv : KV) (k : String) : Nat :=
  match kv.lookup k with
  | some (KVValue.num n) => n
  | _ => 0

/-- Modelled from the spec: `embeddingHeadCountK()` — looked up via the
architecture-scoped key `<architecture>.attention.key_length`, zero when
absent. -/
def KV.EmbeddingHeadCountK (kv : KV) : Nat :=
  kv.numValue (kv.Architecture ++ ".attention.key_length")

/-- Modelled from the spec: `embeddingHeadCountV()` — looked up via the
architecture-scoped key `<architecture>.attention.value_length`, zero when
absent. -/
def KV.EmbeddingHeadCountV (kv : KV) : Nat :=
  kv.numValue (kv.Architecture ++ ".attention.value_length")

/-- One accelerator descriptor (`discover.GpuInfo`): a library identifier
and a driver major version. -/
structure GpuInfo where
  Library : String
  DriverMajor : Int
deriving DecidableEq

/-- The decision record `FlashAttentionSupport` (src/unnamed/part_000,
lines 93-99). -/
structure FlashAttentionSupport where
  SupportedByModel : Bool
  SupportedByHardware : Bool
  IsEmbeddingModel : Bool
  Enabled : Bool
deriving DecidableEq

/-- `ValidKVCacheTypes` — all supported KV cache types (identical in both
source files). -/
def ValidKVCacheTypes : List String :=
  ["f32", "f16", "q8_0", "q5_1", "q5_0", "iq4_nl", "q4_1", "q4_0"]

/-- The quantized cache types named in the warning branches of both
`GetServerParams` variants. -/
def quantizedCacheTypes : List String :=
  ["q8_0", "q5_1", "q5_0", "iq4_nl", "q4_1", "q4_0"]

namespace Unnamed

/-- The hardware-support loop of `ValidateFlashAttentionSupport`
(src/unnamed/part_000, lines 40-48): start from true, set false and break at
the first accelerator failing the metal/cuda-ge-7/rocm test. -/
def hardwareLoop : List GpuInfo → Bool
  | [] => true
  | g :: rest =>
    if g.Library != "metal" && (g.Library != "cuda" || decide (g.DriverMajor < 7)) && g.Library != "rocm" then
      false
    else
      hardwareLoop rest

/-- `ValidateFlashAttentionSupport` (src/unnamed/part_000, lines 18-67),
returning the four-field decision record.  The slog calls are
diagnostic-only and omitted. -/
def ValidateFlashAttentionSupport (kv : KV) (gpus : List GpuInfo)
    (flashAttnRequested : Bool) : FlashAttentionSupport :=
  let isEmbeddingModel := kv.hasKey (kv.Architecture ++ ".pooling_type")
  let headCountK := kv.EmbeddingHeadCountK
  let headCountV := kv.EmbeddingHeadCountV
  let modelSupported := headCountK != 0 && headCountV != 0 && headCountK == headCountV
  let hardwareSupported := hardwareLoop gpus
  let enabled := flashAttnRequested && modelSupported && hardwareSupported && !isEmbeddingModel
  { SupportedByModel := modelSupported
    SupportedByHardware := hardwareSupported
    IsEmbeddingModel := isEmbeddingModel
    Enabled := enabled }

/-- `ValidateKVCacheType` (src/unnamed/part_000, lines 72-91).  The second
component is the Go `error` result (always `nil`, i.e. `none`). -/
def ValidateKVCacheType (cacheType : String) (isEmbeddingModel : Bool) :
    String × Option String :=
  if cacheType == "" then ("", none)
  else if !(ValidKVCacheTypes.contains cacheType) then ("", none)
  else if isEmbeddingModel && cacheType != "f16" && cacheType != "f32" then ("", none)
  else (cacheType, none)

/-- `GetServerParams` (src/unnamed/part_000, lines 101-125).  The else
branch of the Go source only emits a warning and appends nothing. -/
def GetServerParams (flashAttn : FlashAttentionSupport) (kvCacheType : String)
    (baseParams : List String) : List String :=
  let params := baseParams
  if flashAttn.Enabled then
    let params2 := params ++ ["--flash-attn"]
    let validatedType := (ValidateKVCacheType kvCacheType flashAttn.IsEmbeddingModel).1
    if validatedType != "" then params2 ++ ["--kv-cache-type", validatedType]
    else params2
  else
    params

end Unnamed

namespace Llm

/-- An accelerator qualifies for flash attention, in the words of the spec:
library identifier "metal" or "rocm" unconditionally, or "cuda" with driver
major version at least 7. -/
def gpuQualifies (g : GpuInfo) : Bool :=
  g.Library == "metal" || g.Library == "rocm" ||
    (g.Library == "cuda" && decide (7 ≤ g.DriverMajor))

/-- Modelled from the spec: `discover.GpuInfoList.SupportsFlashAttention`
(the accelerator-enumeration collaborator called by
src/llm/validation.go, line 20; its Go definition lives outside `src/`):
true iff every accelerator in the list qualifies. -/
def SupportsFlashAttention (gpus : List GpuInfo) : Bool :=
  gpus.all gpuQualifies

/-- `supportsFlashAttention` (src/llm/validation.go, lines 27-38): false
for embedding models, otherwise the non-zero-and-equal head-count test. -/
def supportsFlashAttention (kv : KV) : Bool :=
  if kv.hasKey (kv.Architecture ++ ".pooling_type") then false
  else
    let headCountK := kv.EmbeddingHeadCountK
    let headCountV := kv.EmbeddingHeadCountV
    headCountK != 0 && headCountV != 0 && headCountK == headCountV

/-- `ValidateFlashAttentionSupport` (src/llm/validation.go, lines 18-25),
the single-boolean variant. -/
def ValidateFlashAttentionSupport (kv : KV) (gpus : List GpuInfo)
    (flashAttnRequested : Bool) : Bool :=
  if !SupportsFlashAttention gpus then false
  else supportsFlashAttention kv && flashAttnRequested

/-- `ValidateKVCacheType` (src/llm/validation.go, lines 43-62).  The second
component is the Go `error` result (always `nil`, i.e. `none`). -/
def ValidateKVCacheType (cacheType : String) (isEmbedding : Bool) :
    String × Option String :=
  if cacheType == "" then ("", none)
  else if !(ValidKVCacheTypes.contains cacheType) then ("f16", none)
  else if isEmbedding && cacheType != "f16" && cacheType != "f32" then ("f16", none)
  else (cacheType, none)

/-- `GetServerParams` (src/llm/validation.go, lines 64-94).  The else
branch of the Go source only emits a warning and appends nothing. -/
def GetServerParams (kv : KV) (gpus : List GpuInfo) (flashAttnRequested : Bool)
    (kvCacheType : String) (baseParams : List String) : List String :=
  let params := baseParams
  let flashAttnEnabled := ValidateFlashAttentionSupport kv gpus flashAttnRequested
  let isEmbeddingModel := kv.hasKey (kv.Architecture ++ ".pooling_type")
  if flashAttnEnabled then
    let params2 := params ++ ["--flash-attn"]
    let validatedType := (ValidateKVCacheType kvCacheType isEmbeddingModel).1
    if validatedType != "" then params2 ++ ["--kv-cache-type", validatedType]
    else params2
  else
    params

end Llm

/-! ## Helper lemmas -/

/-- The rejection test of the Go hardware loop is the negation of the
qualification predicate of the spec. -/
lemma goReject_eq_not_qualifies (g : GpuInfo) :
    (g.Library != "metal" && (g.Library != "cuda" || decide (g.DriverMajor < 7)) &&
      g.Library != "rocm") = !(Llm.gpuQualifies g) := by
  simp only [Llm.gpuQualifies, bne]
  cases hm : g.Library == "metal" <;> cases hc : g.Library == "cuda" <;>
    cases hr : g.Library == "rocm" <;> cases hd : decide (7 ≤ g.DriverMajor) <;>
      simp_all [not_le]

/-- The break-early hardware loop computes the all-qualify conjunction. -/
lemma hardwareLoop_eq_all (gpus : List GpuInfo) :
    Unnamed.hardwareLoop gpus = gpus.all Llm.gpuQualifies := by
  induction gpus with
  | nil => rfl
  | cons g rest ih =>
    rw [Unnamed.hardwareLoop, List.all_cons, goReject_eq_not_qualifies, ih]
    cases Llm.gpuQualifies g <;> simp

/-- Reassociation of the four-fold boolean conjunction. -/
lemma bool_shuffle (a b c d : Bool) : (a && b && c && !d) = (b && c && a && !d) := by
  cases a <;> cases b <;> cases c <;> cases d <;> rfl

/-! ## Claims -/

/-- C1: for every model metadata, accelerator list and request flag, the
Enabled field of the decision equals the conjunction of modelSupported,
hardwareSupported, requested and not-isEmbeddingModel (so Enabled is false
whenever IsEmbeddingModel is true); and the single-boolean variant of
ValidateFlashAttentionSupport returns exactly that Enabled value. -/
theorem enabled_iff_all_four (kv : KV) (gpus : List GpuInfo) (req : Bool) :
    ((Unnamed.ValidateFlashAttentionSupport kv gpus req).Enabled =
      ((Unnamed.ValidateFlashAttentionSupport kv gpus req).SupportedByModel &&
        (Unnamed.ValidateFlashAttentionSupport kv gpus req).SupportedByHardware &&
        req &&
        !(Unnamed.ValidateFlashAttentionSupport kv gpus req).IsEmbeddingModel)) ∧
    Llm.ValidateFlashAttentionSupport kv gpus req =
      (Unnamed.ValidateFlashAttentionSupport kv gpus req).Enabled := by
  constructor
  · simp only [Unnamed.ValidateFlashAttentionSupport]
    exact bool_shuffle ..
  · simp only [Llm.ValidateFlashAttentionSupport, Llm.supportsFlashAttention,
      Unnamed.ValidateFlashAttentionSupport, hardwareLoop_eq_all,
      Llm.SupportsFlashAttention]
    cases h1 : kv.hasKey (kv.Architecture ++ ".pooling_type") <;>
      cases h2 : gpus.all Llm.gpuQualifies <;> cases req <;>
        cases h3 : (kv.EmbeddingHeadCountK != 0 && kv.EmbeddingHeadCountV != 0 &&
          kv.EmbeddingHeadCountK == kv.EmbeddingHeadCountV) <;>
          simp [h1, h2, h3]

/-- C4: the hardware-supported fact of the decision is true iff every
accelerator in the list qualifies (metal or rocm unconditionally, cuda with
driver major at least 7), and the empty list is vacuously supported. -/
theorem hardwareSupported_iff_all_qualify (kv : KV) (gpus : List GpuInfo) (req : Bool) :
    ((Unnamed.ValidateFlashAttentionSupport kv gpus req).SupportedByHardware = true ↔
      ∀ g ∈ gpus, Llm.gpuQualifies g = true) ∧
    (Unnamed.ValidateFlashAttentionSupport kv [] req).SupportedByHardware = true := by
  constructor
  · simp only [Unnamed.ValidateFlashAttentionSupport, hardwareLoop_eq_all]
    exact List.all_eq_true
  · rfl

/-- C5: the model-supported fact of the decision is true iff the embedding
head counts for K and V are both non-zero and equal; an absent key_length
key resolves to a zero head count and yields unsupported; and for
non-embedding models the single-boolean supportsFlashAttention agrees with
the same head-count condition. -/
theorem modelSupported_iff_head_counts (kv : KV) (gpus : List GpuInfo) (req : Bool) :
    ((Unnamed.ValidateFlashAttentionSupport kv gpus req).SupportedByModel = true ↔
      (kv.EmbeddingHeadCountK ≠ 0 ∧ kv.EmbeddingHeadCountV ≠ 0 ∧
        kv.EmbeddingHeadCountK = kv.EmbeddingHeadCountV)) ∧
    (kv.lookup (kv.Architecture ++ ".attention.key_length") = none →
      kv.EmbeddingHeadCountK = 0 ∧
      (Unnamed.ValidateFlashAttentionSupport kv gpus req).SupportedByModel = false) ∧
    (kv.hasKey (kv.Architecture ++ ".pooling_type") = false →
      (Llm.supportsFlashAttention kv = true ↔
        (kv.EmbeddingHeadCountK ≠ 0 ∧ kv.EmbeddingHeadCountV ≠ 0 ∧
          kv.EmbeddingHeadCountK = kv.EmbeddingHeadCountV))) := by
  refine ⟨?_, ?_, ?_⟩
  · simp only [Unnamed.ValidateFlashAttentionSupport]
    simp [and_assoc]
  · intro h
    have hk : kv.EmbeddingHeadCountK = 0 := by
      simp [KV.EmbeddingHeadCountK, KV.numValue, h]
    refine ⟨hk, ?_⟩
    simp only [Unnamed.ValidateFlashAttentionSupport]
    simp [hk]
  · intro h
    simp only [Llm.supportsFlashAttention, h]
    simp [and_assoc]

/-- C5 witness: a metadata mapping with no keys at all has an absent
key_length key, a zero K head count, and an unsupported model; it is also
non-embedding, so the supportsFlashAttention equivalence applies. -/
theorem modelSupported_iff_head_counts_witness :
    (KV.mk []).lookup ((KV.mk []).Architecture ++ ".attention.key_length") = none ∧
    (KV.mk []).hasKey ((KV.mk []).Architecture ++ ".pooling_type") = false ∧
    ((KV.mk []).EmbeddingHeadCountK = 0 ∧
      (Unnamed.ValidateFlashAttentionSupport (KV.mk []) [] true).SupportedByModel = false) :=
  ⟨by decide, by decide,
    (modelSupported_iff_head_counts (KV.mk []) [] true).2.1 (by decide)⟩

/-- C2 counterexample: "invalid" is not a member of the valid set, yet the
validation.go variant of ValidateKVCacheType returns "f16", not the empty
string. -/
theorem invalid_cache_llm_cex :
    ¬ ("invalid" ∈ ValidKVCacheTypes) ∧
    (Llm.ValidateKVCacheType "invalid" false).1 = "f16" ∧
    (Llm.ValidateKVCacheType "invalid" false).1 ≠ "" := by
  refine ⟨by decide, by decide, by decide⟩

/-- Shared helper: the behaviour of both ValidateKVCacheType variants on a
request outside the valid set. -/
lemma kvCacheType_reject (ct : String) (emb : Bool)
    (h : ¬ ct ∈ ValidKVCacheTypes) :
    (Unnamed.ValidateKVCacheType ct emb).1 = "" ∧
    (Unnamed.ValidateKVCacheType ct emb).2 = none ∧
    (ct ≠ "" → (Llm.ValidateKVCacheType ct emb).1 = "f16") ∧
    (Llm.ValidateKVCacheType ct emb).2 = none := by
  have hc : ValidKVCacheTypes.contains ct = false := by
    simp only [List.contains, List.elem_eq_mem, decide_eq_false_iff_not]
    exact h
  have hne : (ct == "") = true → ct = "" := by
    intro hh
    exact eq_of_beq hh
  refine ⟨?_, ?_, ?_, ?_⟩
  · simp only [Unnamed.ValidateKVCacheType, hc]
    split <;> simp
  · simp only [Unnamed.ValidateKVCacheType, hc]
    split <;> simp
  · intro hct
    have : (ct == "") = false := by
      cases hh : ct == "" with
      | false => rfl
      | true => exact absurd (hne hh) hct
    simp only [Llm.ValidateKVCacheType, hc, this]
    simp
  · simp only [Llm.ValidateKVCacheType, hc]
    split <;> simp

/-- C2 amended: for every requested format outside the valid set and every
embedding flag, the part_000 variant returns the empty string, while the
validation.go variant returns "f16" whenever the request is non-empty (an
empty request is echoed as empty); neither raises an error. -/
theorem invalid_cache_fallback (ct : String) (emb : Bool)
    (h : ¬ ct ∈ ValidKVCacheTypes) :
    (Unnamed.ValidateKVCacheType ct emb).1 = "" ∧
    (Unnamed.ValidateKVCacheType ct emb).2 = none ∧
    (ct ≠ "" → (Llm.ValidateKVCacheType ct emb).1 = "f16") ∧
    (Llm.ValidateKVCacheType ct emb).2 = none :=
  kvCacheType_reject ct emb h

/-- C2 witness: the concrete request "invalid" for a non-embedding model is
outside the valid set; part_000 returns empty and validation.go returns
"f16", both with a nil error. -/
theorem invalid_cache_fallback_witness :
    ¬ ("invalid" ∈ ValidKVCacheTypes) ∧
    ((Unnamed.ValidateKVCacheType "invalid" false).1 = "" ∧
      (Unnamed.ValidateKVCacheType "invalid" false).2 = none ∧
      ("invalid" ≠ "" → (Llm.ValidateKVCacheType "invalid" false).1 = "f16") ∧
      (Llm.ValidateKVCacheType "invalid" false).2 = none) :=
  ⟨by decide, invalid_cache_fallback "invalid" false (by decide)⟩

/-- C3 counterexample: the quantized format "q8_0" requested for an
embedding model is answered with "f16", not the empty string, by the
validation.go variant of ValidateKVCacheType. -/
theorem quantized_embedding_llm_cex :
    "q8_0" ∈ quantizedCacheTypes ∧
    (Llm.ValidateKVCacheType "q8_0" true).1 = "f16" ∧
    (Llm.ValidateKVCacheType "q8_0" true).1 ≠ "" := by
  refine ⟨by decide, by decide, by decide⟩

/-- C3 amended: for every quantized format requested with the embedding
flag set, the part_000 variant of ValidateKVCacheType returns the empty
string, while the validation.go variant returns "f16"; only f16 and f32 are
echoed for embedding models. -/
theorem quantized_embedding_fallback (ct : String)
    (h : ct ∈ quantizedCacheTypes) :
    (Unnamed.ValidateKVCacheType ct true).1 = "" ∧
    (Llm.ValidateKVCacheType ct true).1 = "f16" := by
  simp only [quantizedCacheTypes, List.mem_cons, List.not_mem_nil, or_false] at h
  rcases h with h | h | h | h | h | h <;> subst h <;> exact ⟨by decide, by decide⟩

/-- C3 witness: the concrete quantized format "q8_0" with the embedding
flag set is rejected to empty by part_000 and to "f16" by validation.go. -/
theorem quantized_embedding_fallback_witness :
    "q8_0" ∈ quantizedCacheTypes ∧
    ((Unnamed.ValidateKVCacheType "q8_0" true).1 = "" ∧
      (Llm.ValidateKVCacheType "q8_0" true).1 = "f16") :=
  ⟨by decide, quantized_embedding_fallback "q8_0" (by decide)⟩

/-- C6: both GetServerParams variants return the caller-supplied base
parameters as a verbatim in-order front segment, and everything added is
strictly appended after them in the fixed order: "--flash-attn" first, then
"--kv-cache-type" followed by the format. -/
theorem getServerParams_appends_after_base (fa : FlashAttentionSupport)
    (kv : KV) (gpus : List GpuInfo) (req : Bool) (ct : String)
    (base : List String) :
    (∃ extra, Unnamed.GetServerParams fa ct base = base ++ extra ∧
      (extra = [] ∨ extra = ["--flash-attn"] ∨
        ∃ fmt, extra = ["--flash-attn", "--kv-cache-type", fmt])) ∧
    (∃ extra, Llm.GetServerParams kv gpus req ct base = base ++ extra ∧
      (extra = [] ∨ extra = ["--flash-attn"] ∨
        ∃ fmt, extra = ["--flash-attn", "--kv-cache-type", fmt])) := by
  constructor
  · simp only [Unnamed.GetServerParams]
    split
    · split
      · exact ⟨["--flash-attn", "--kv-cache-type",
          (Unnamed.ValidateKVCacheType ct fa.IsEmbeddingModel).1],
          by simp, Or.inr (Or.inr ⟨_, rfl⟩)⟩
      · exact ⟨["--flash-attn"], by simp, Or.inr (Or.inl rfl)⟩
    · exact ⟨[], by simp, Or.inl rfl⟩
  · simp only [Llm.GetServerParams]
    split
    · split
      · exact ⟨["--flash-attn", "--kv-cache-type",
          (Llm.ValidateKVCacheType ct
            (kv.hasKey (kv.Architecture ++ ".pooling_type"))).1],
          by simp, Or.inr (Or.inr ⟨_, rfl⟩)⟩
      · exact ⟨["--flash-attn"], by simp, Or.inr (Or.inl rfl)⟩
    · exact ⟨[], by simp, Or.inl rfl⟩

/-- C7: when the Enabled field of the decision is false, both GetServerParams
variants return exactly the base parameters with nothing appended. -/
theorem getServerParams_disabled_unchanged (fa : FlashAttentionSupport)
    (kv : KV) (gpus : List GpuInfo) (req : Bool) (ct : String)
    (base : List String)
    (h1 : fa.Enabled = false)
    (h2 : Llm.ValidateFlashAttentionSupport kv gpus req = false) :
    Unnamed.GetServerParams fa ct base = base ∧
    Llm.GetServerParams kv gpus req ct base = base := by
  constructor
  · simp [Unnamed.GetServerParams, h1]
  · simp [Llm.GetServerParams, h2]

/-- C7 witness: an all-false decision record, an empty metadata mapping, an
empty accelerator list and an unset request flag all disable the
accelerated path, and a quantized request "q8_0" appends nothing. -/
theorem getServerParams_disabled_unchanged_witness :
    (FlashAttentionSupport.mk false false false false).Enabled = false ∧
    Llm.ValidateFlashAttentionSupport (KV.mk []) [] false = false ∧
    (Unnamed.GetServerParams (FlashAttentionSupport.mk false false false false)
        "q8_0" ["--model", "test"] = ["--model", "test"] ∧
      Llm.GetServerParams (KV.mk []) [] false "q8_0" ["--model", "test"] =
        ["--model", "test"]) :=
  ⟨by decide, by decide,
    getServerParams_disabled_unchanged (FlashAttentionSupport.mk false false false false)
      (KV.mk []) [] false "q8_0" ["--model", "test"] (by decide) (by decide)⟩

/-- C8: for every format in the valid set that is legal for the embedding
flag (any member when the flag is false, only f16 or f32 when it is true),
both ValidateKVCacheType variants echo the input unchanged, and validating
their own output returns the same value (idempotence on compatible
inputs). -/
theorem validateKVCacheType_idempotent (ct : String) (emb : Bool)
    (h1 : ct ∈ ValidKVCacheTypes)
    (h2 : emb = true → ct = "f16" ∨ ct = "f32") :
    (Unnamed.ValidateKVCacheType ct emb).1 = ct ∧
    (Llm.ValidateKVCacheType ct emb).1 = ct ∧
    (Unnamed.ValidateKVCacheType (Unnamed.ValidateKVCacheType ct emb).1 emb).1 =
      (Unnamed.ValidateKVCacheType ct emb).1 ∧
    (Llm.ValidateKVCacheType (Llm.ValidateKVCacheType ct emb).1 emb).1 =
      (Llm.ValidateKVCacheType ct emb).1 := by
  simp only [ValidKVCacheTypes, List.mem_cons, List.not_mem_nil, or_false] at h1
  cases emb with
  | false =>
    rcases h1 with h | h | h | h | h | h | h | h <;> subst h <;>
      exact ⟨by decide, by decide, by decide, by decide⟩
  | true =>
    rcases h2 rfl with h | h <;> subst h <;>
      exact ⟨by decide, by decide, by decide, by decide⟩

/-- C8 witness: the valid quantized format "q8_0" for a non-embedding
model is echoed unchanged by both variants and re-validates to itself. -/
theorem validateKVCacheType_idempotent_witness :
    "q8_0" ∈ ValidKVCacheTypes ∧
    ((Unnamed.ValidateKVCacheType "q8_0" false).1 = "q8_0" ∧
      (Llm.ValidateKVCacheType "q8_0" false).1 = "q8_0" ∧
      (Unnamed.ValidateKVCacheType (Unnamed.ValidateKVCacheType "q8_0" false).1 false).1 =
        (Unnamed.ValidateKVCacheType "q8_0" false).1 ∧
      (Llm.ValidateKVCacheType (Llm.ValidateKVCacheType "q8_0" false).1 false).1 =
        (Llm.ValidateKVCacheType "q8_0" false).1) :=
  ⟨by decide, validateKVCacheType_idempotent "q8_0" false (by decide) (by decide)⟩

/-- C9: for every input pair, the error component returned by both
ValidateKVCacheType variants is nil; degraded cases are reported only
through the returned format value. -/
theorem validateKVCacheType_no_error (ct : String) (emb : Bool) :
    (Unnamed.ValidateKVCacheType ct emb).2 = none ∧
    (Llm.ValidateKVCacheType ct emb).2 = none := by
  constructor
  · simp only [Unnamed.ValidateKVCacheType]
    split
    · rfl
    · split
      · rfl
      · split <;> rfl
  · simp only [Llm.ValidateKVCacheType]
    split
    · rfl
    · split
      · rfl
      · split <;> rfl

/-- C10 counterexample: on the request "invalid" for a non-embedding model,
the part_000 variant returns the empty string while the validation.go
variant returns "f16", so the two chosen-format results differ. -/
theorem variants_differ_cex :
    (Unnamed.ValidateKVCacheType "invalid" false).1 ≠
      (Llm.ValidateKVCacheType "invalid" false).1 := by
  decide

/-- C10 amended: the two ValidateKVCacheType variants return the same
chosen-format string exactly when the input is empty or is a member of the
valid set that is legal for the embedding flag; on every rejected input the
part_000 variant returns the empty string and the validation.go variant
returns "f16". -/
theorem variants_agree_iff (ct : String) (emb : Bool) :
    ((Unnamed.ValidateKVCacheType ct emb).1 = (Llm.ValidateKVCacheType ct emb).1) ↔
      (ct = "" ∨ (ct ∈ ValidKVCacheTypes ∧ (emb = true → ct = "f16" ∨ ct = "f32"))) := by
  by_cases h0 : ct = ""
  · subst h0
    simp [Unnamed.ValidateKVCacheType, Llm.ValidateKVCacheType]
  · by_cases hm : ct ∈ ValidKVCacheTypes
    · simp only [ValidKVCacheTypes, List.mem_cons, List.not_mem_nil, or_false] at hm
      rcases hm with h | h | h | h | h | h | h | h <;> subst h <;> cases emb <;> decide
    · have hrej := kvCacheType_reject ct emb hm
      rw [hrej.1, hrej.2.2.1 h0]
      simp [h0, hm]

end OllamaValidation
